import Mathlib

/-
Verification of the gift-coordination bot (bot.py + database.py).

The SQLite store is embedded as explicit lists of rows; every insertion
appends at the end of its list, so list order coincides with the
`created_at` insertion order used by the SQL `ORDER BY created_at`
queries.  `INSERT OR REPLACE` on a table with a unique key is embedded as
"filter out the conflicting row, then append" (SQLite deletes the
conflicting row and inserts a fresh one, with a fresh `created_at`).
The gifts table uses AUTOINCREMENT, so gift ids are allocated by a
monotonically increasing counter and never reused.
-/

namespace GiftBot

/-- Gift lifecycle status: exactly the four values the code ever writes
(`available` is the column default, the rest come from
`update_gift_status` call sites). -/
inductive GiftStatus
  | available
  | claimed
  | bought
  | already_has
deriving DecidableEq, Repr

/-- A row of the `gifts` table. -/
structure Gift where
  id : Nat
  name : String
  price : Option Int
  category : String
  status : GiftStatus
  added_by_id : Nat
  added_by_name : String
deriving DecidableEq, Repr

/-- A row of the `buyers` table (a contribution), unique on
`(gift_id, user_id)`. -/
structure Buyer where
  gift_id : Nat
  user_id : Nat
  user_name : String
  amount : Option Int
deriving DecidableEq, Repr

/-- Modelled from the spec: a fact record (§4.5 Fact Log: id, author id,
text, timestamp).  bot.py calls `db.add_fact`, but src's database module
does not define the facts table. -/
structure FactRec where
  author_id : Nat
  fact_text : String
deriving DecidableEq, Repr

/-- Modelled from the spec: an actor-directory record (§4.1: id, optional
handle, optional display name).  bot.py calls `db.track_user`, but src's
database module does not define the users table. -/
structure UserRec where
  user_id : Nat
  username : Option String
  full_name : Option String
deriving DecidableEq, Repr

/-- The whole store: the four tables of `_init_db` plus the spec-modelled
facts and actor-directory tables, and the AUTOINCREMENT counter for gift
ids. -/
structure DB where
  gifts : List Gift
  buyers : List Buyer
  banned : List (Nat × Option String)
  admins : List (Nat × Option String)
  users : List UserRec
  facts : List FactRec
  next_gift_id : Nat
deriving DecidableEq, Repr

/-- Freshly initialized store: all tables empty, first AUTOINCREMENT id 1. -/
def initDB : DB := ⟨[], [], [], [], [], [], 1⟩

/-- `Database.add_gift`: INSERT with defaults `status = available`; returns
the fresh AUTOINCREMENT row id. -/
def DB.add_gift (db : DB) (name : String) (price : Option Int) (category : String)
    (added_by_id : Nat) (added_by_name : String) : DB × Nat :=
  let gid := db.next_gift_id
  ({ db with
      gifts := db.gifts ++
        [⟨gid, name, price, category, GiftStatus.available, added_by_id, added_by_name⟩],
      next_gift_id := gid + 1 }, gid)

/-- `Database.get_gift`: SELECT a single gift by id. -/
def DB.get_gift (db : DB) (gift_id : Nat) : Option Gift :=
  db.gifts.find? (fun g => decide (g.id = gift_id))

/-- `Database.update_gift_status`: UPDATE gifts SET status WHERE id. -/
def DB.update_gift_status (db : DB) (gift_id : Nat) (status : GiftStatus) : DB :=
  { db with
      gifts := db.gifts.map
        (fun g => if g.id = gift_id then { g with status := status } else g) }

/-- `Database.delete_gift`: DELETE the gift's buyers, then the gift. -/
def DB.delete_gift (db : DB) (gift_id : Nat) : DB :=
  { db with
      buyers := db.buyers.filter (fun b => decide (¬ b.gift_id = gift_id)),
      gifts := db.gifts.filter (fun g => decide (¬ g.id = gift_id)) }

/-- `Database.add_buyer`: INSERT OR REPLACE INTO buyers, which on the
UNIQUE(gift_id, user_id) key deletes any conflicting row and inserts a
fresh one. -/
def DB.add_buyer (db : DB) (gift_id user_id : Nat) (user_name : String)
    (amount : Option Int) : DB :=
  { db with
      buyers := db.buyers.filter
          (fun b => decide (¬ (b.gift_id = gift_id ∧ b.user_id = user_id)))
        ++ [⟨gift_id, user_id, user_name, amount⟩] }

/-- `Database.update_buyer_amount`: UPDATE buyers SET amount WHERE
gift_id AND user_id. -/
def DB.update_buyer_amount (db : DB) (gift_id user_id : Nat) (amount : Int) : DB :=
  { db with
      buyers := db.buyers.map (fun b =>
        if b.gift_id = gift_id ∧ b.user_id = user_id then { b with amount := some amount }
        else b) }

/-- `Database.remove_buyer`: DELETE FROM buyers WHERE gift_id AND user_id. -/
def DB.remove_buyer (db : DB) (gift_id user_id : Nat) : DB :=
  { db with
      buyers := db.buyers.filter
        (fun b => decide (¬ (b.gift_id = gift_id ∧ b.user_id = user_id))) }

/-- `Database.remove_all_buyers`: DELETE FROM buyers WHERE gift_id. -/
def DB.remove_all_buyers (db : DB) (gift_id : Nat) : DB :=
  { db with buyers := db.buyers.filter (fun b => decide (¬ b.gift_id = gift_id)) }

/-- `Database.get_gift_buyers`: SELECT buyers of a gift ORDER BY
created_at (list order is insertion order here). -/
def DB.get_gift_buyers (db : DB) (gift_id : Nat) : List Buyer :=
  db.buyers.filter (fun b => decide (b.gift_id = gift_id))

/-- `Database.get_user_gifts`: SELECT g.*, b.amount FROM gifts JOIN buyers
ON g.id = b.gift_id WHERE b.user_id = the given user. -/
def DB.get_user_gifts (db : DB) (user_id : Nat) : List (Gift × Option Int) :=
  db.gifts.flatMap (fun g =>
    (db.buyers.filter (fun b => decide (b.gift_id = g.id ∧ b.user_id = user_id))).map
      (fun b => (g, b.amount)))

/-- `Database.ban_user`: INSERT OR REPLACE INTO banned_users (primary key
user_id). -/
def DB.ban_user (db : DB) (user_id : Nat) (name : Option String) : DB :=
  { db with
      banned := db.banned.filter (fun p => decide (¬ p.1 = user_id)) ++ [(user_id, name)] }

/-- `Database.unban_user`: DELETE FROM banned_users WHERE user_id. -/
def DB.unban_user (db : DB) (user_id : Nat) : DB :=
  { db with banned := db.banned.filter (fun p => decide (¬ p.1 = user_id)) }

/-- `Database.is_user_banned`: membership in the banned table. -/
def DB.is_user_banned (db : DB) (user_id : Nat) : Bool :=
  db.banned.any (fun p => decide (p.1 = user_id))

/-- `Database.add_admin`: INSERT OR REPLACE INTO admins (primary key
user_id). -/
def DB.add_admin (db : DB) (user_id : Nat) (name : Option String) : DB :=
  { db with
      admins := db.admins.filter (fun p => decide (¬ p.1 = user_id)) ++ [(user_id, name)] }

/-- `Database.is_admin`: membership in the admins table. -/
def DB.is_admin (db : DB) (user_id : Nat) : Bool :=
  db.admins.any (fun p => decide (p.1 = user_id))

/-- `Database.has_any_admin`: SELECT 1 FROM admins LIMIT 1. -/
def DB.has_any_admin (db : DB) : Bool :=
  !db.admins.isEmpty

/-- Modelled from the spec: `track_user` (called by bot.py's `start`, absent
from src's database module).  §4.1: every actor who initializes a session
is recorded in an actor directory (id, optional handle, optional display
name) regardless of ban status; keyed by actor id. -/
def DB.track_user (db : DB) (user_id : Nat) (username : Option String)
    (full_name : Option String) : DB :=
  { db with
      users := db.users.filter (fun r => decide (¬ r.user_id = user_id))
        ++ [⟨user_id, username, full_name⟩] }

/-- Modelled from the spec: `add_fact` (called by bot.py's `save_fact`,
absent from src's database module).  §4.5: appends a new fact record. -/
def DB.add_fact (db : DB) (author_id : Nat) (text : String) : DB :=
  { db with facts := db.facts ++ [⟨author_id, text⟩] }

/-- The result record of `Database.get_stats`. -/
structure Stats where
  total : Nat
  available : Nat
  claimed : Nat
  bought : Nat
  already_has : Nat
  participants : Nat
  total_amount : Int
deriving DecidableEq, Repr

/-- `Database.get_stats`: per-status gift counts, COUNT(DISTINCT user_id)
over buyers, and SUM(amount) over buyers (SQL SUM skips NULL amounts;
COALESCE(..., 0) on the empty table). -/
def DB.get_stats (db : DB) : Stats :=
  { total := db.gifts.length,
    available := (db.gifts.filter (fun g => decide (g.status = GiftStatus.available))).length,
    claimed := (db.gifts.filter (fun g => decide (g.status = GiftStatus.claimed))).length,
    bought := (db.gifts.filter (fun g => decide (g.status = GiftStatus.bought))).length,
    already_has := (db.gifts.filter (fun g => decide (g.status = GiftStatus.already_has))).length,
    participants := (db.buyers.map Buyer.user_id).dedup.length,
    total_amount := (db.buyers.filterMap Buyer.amount).sum }

/-- Hardcoded super-admin id from bot.py. -/
def SUPER_ADMIN_ID : Nat := 143043787

/-- bot.py `is_banned`. -/
def is_banned (db : DB) (user_id : Nat) : Bool :=
  db.is_user_banned user_id

/-- bot.py `is_admin`: the hardcoded super admin, or a row in the admins
table. -/
def is_admin (db : DB) (user_id : Nat) : Bool :=
  decide (user_id = SUPER_ADMIN_ID) || db.is_admin user_id

/-- bot.py `start`: track the user first (deliberately before the ban
check), then short-circuit on ban, then bootstrap the first admin if the
admins table is empty. -/
def start (db : DB) (user_id : Nat) (username : Option String) (full_name : String) : DB :=
  let db1 := db.track_user user_id username (some full_name)
  if is_banned db1 user_id then db1
  else if !db1.has_any_admin then db1.add_admin user_id (some full_name)
  else db1

/-- bot.py `claim_gift` (solo claim): add_buyer with NULL amount, then set
status to claimed.  The handler performs no existence or status check. -/
def claim_gift (db : DB) (gift_id user_id : Nat) (user_name : String) : DB :=
  (db.add_buyer gift_id user_id user_name none).update_gift_status gift_id GiftStatus.claimed

/-- bot.py `share_gift` (join a co-funded purchase): no-op if the actor
already appears among the gift's buyers, otherwise add_buyer with NULL
amount and set status to claimed. -/
def share_gift (db : DB) (gift_id user_id : Nat) (user_name : String) : DB :=
  if (db.get_gift_buyers gift_id).any (fun b => decide (b.user_id = user_id)) then db
  else (db.add_buyer gift_id user_id user_name none).update_gift_status gift_id GiftStatus.claimed

/-- bot.py `unclaim_gift` (withdraw): remove the actor's buyer row, then
reset status to available iff no buyers remain. -/
def unclaim_gift (db : DB) (gift_id user_id : Nat) : DB :=
  let db1 := db.remove_buyer gift_id user_id
  if (db1.get_gift_buyers gift_id).isEmpty then
    db1.update_gift_status gift_id GiftStatus.available
  else db1

/-- bot.py `mark_bought`: set status to bought; buyers retained. -/
def mark_bought (db : DB) (gift_id : Nat) : DB :=
  db.update_gift_status gift_id GiftStatus.bought

/-- bot.py `mark_already_has`: set status to already_has, then delete all
the gift's buyers. -/
def mark_already_has (db : DB) (gift_id : Nat) : DB :=
  (db.update_gift_status gift_id GiftStatus.already_has).remove_all_buyers gift_id

/-- bot.py `delete_gift` handler: admin-gated cascade delete; a
non-administrator gets a denial and the store is untouched. -/
def delete_gift_handler (db : DB) (user_id gift_id : Nat) : DB :=
  if is_admin db user_id then db.delete_gift gift_id else db

/-- One discrete actor-action event against the store: the eight lifecycle
operations of §4.2, plus the session/moderation/fact events that also
mutate the store. -/
inductive Op
  | create (user_id : Nat) (user_name : String) (name : String) (price : Option Int)
      (category : String)
  | claim (gift_id user_id : Nat) (user_name : String)
  | join (gift_id user_id : Nat) (user_name : String)
  | setAmount (gift_id user_id : Nat) (amount : Int)
  | withdraw (gift_id user_id : Nat)
  | markBought (gift_id : Nat)
  | markAlreadyHas (gift_id : Nat)
  | deleteOp (user_id gift_id : Nat)
  | sessionStart (user_id : Nat) (username : Option String) (full_name : String)
  | banOp (target : Nat) (name : Option String)
  | unbanOp (target : Nat)
  | addAdminOp (target : Nat) (name : Option String)
  | factOp (user_id : Nat) (text : List Char)
deriving DecidableEq, Repr

/-- Whitespace characters stripped by Python's `str.strip()` /
`int(str)` (ASCII part). -/
def pyIsSpace (c : Char) : Bool :=
  decide (c = ' ' ∨ c = '\t' ∨ c = '\n' ∨ c = '\r' ∨ c = '\x0b' ∨ c = '\x0c')

/-- Python `str.strip()` on a character list. -/
def pyStrip (cs : List Char) : List Char :=
  ((cs.dropWhile pyIsSpace).reverse.dropWhile pyIsSpace).reverse

/-- The value of an ASCII digit character. -/
def digitVal (c : Char) : Nat := c.toNat - 48

/-- Digits of a Python integer literal after the first digit: a single
underscore is permitted between two digits, nowhere else. -/
def digitsRest (acc : Nat) : List Char → Option Nat
  | [] => some acc
  | c :: cs =>
    if c = '_' then
      match cs with
      | [] => none
      | d :: cs2 => if d.isDigit then digitsRest (acc * 10 + digitVal d) cs2 else none
    else if c.isDigit then digitsRest (acc * 10 + digitVal c) cs
    else none

/-- A nonempty Python digit part (digits with optional single underscores
between them). -/
def digitPart : List Char → Option Nat
  | [] => none
  | c :: cs => if c.isDigit then digitsRest (digitVal c) cs else none

/-- Python `int(str)` (ASCII form): surrounding whitespace stripped, one
optional sign, then a digit part; anything else raises ValueError
(`none`). -/
def pyInt (cs : List Char) : Option Int :=
  let cs1 := ((cs.dropWhile pyIsSpace).reverse.dropWhile pyIsSpace).reverse
  match cs1 with
  | '+' :: rest => (digitPart rest).map (fun n => (n : Int))
  | '-' :: rest => (digitPart rest).map (fun n => -(n : Int))
  | rest => (digitPart rest).map (fun n => (n : Int))

/-- `text.replace(" ", "").replace("₽", "")`: both patterns are single
characters, so the replacement is a filter. -/
def stripPriceChars (text : List Char) : List Char :=
  text.filter (fun c => decide (¬ (c = ' ' ∨ c = '₽')))

/-- The price/amount parse shared by `add_gift_price` and
`set_contribution`: `int(text.replace(" ", "").replace("₽", ""))`. -/
def parse_price (text : List Char) : Option Int :=
  pyInt (stripPriceChars text)

/-- bot.py `set_contribution`: parse the amount text; on success update the
actor's buyer row, on ValueError leave the store untouched (the handler
re-prompts). -/
def set_contribution (db : DB) (gift_id user_id : Nat) (text : List Char) : DB :=
  match parse_price text with
  | some amount => db.update_buyer_amount gift_id user_id amount
  | none => db

/-- bot.py `save_fact`: strip the message, reject if the stripped length is
below 5 or above 500 (the handler re-prompts, `false`), otherwise append
the fact (`true`). -/
def save_fact (db : DB) (user_id : Nat) (text : List Char) : DB × Bool :=
  let fact_text := pyStrip text
  if fact_text.length < 5 then (db, false)
  else if fact_text.length > 500 then (db, false)
  else (db.add_fact user_id (String.mk fact_text), true)

/-- The store effect of each event, exactly as the handlers perform it. -/
def applyOp (db : DB) : Op → DB
  | Op.create uid un nm pr cat => (db.add_gift nm pr cat uid un).1
  | Op.claim g u un => claim_gift db g u un
  | Op.join g u un => share_gift db g u un
  | Op.setAmount g u a => db.update_buyer_amount g u a
  | Op.withdraw g u => unclaim_gift db g u
  | Op.markBought g => mark_bought db g
  | Op.markAlreadyHas g => mark_already_has db g
  | Op.deleteOp u g => delete_gift_handler db u g
  | Op.sessionStart u un fn => start db u un fn
  | Op.banOp t n => db.ban_user t n
  | Op.unbanOp t => db.unban_user t
  | Op.addAdminOp t n => db.add_admin t n
  | Op.factOp u text => (save_fact db u text).1

/-- A gift with the given id exists in the store. -/
def giftExists (db : DB) (gift_id : Nat) : Prop :=
  ∃ g ∈ db.gifts, g.id = gift_id

/-- The §4.2 precondition assumed of an event before it is delivered: claim
and join target an existing gift (their buttons are only rendered for
existing gifts).  All other events are taken exactly as the unguarded
handlers execute them. -/
def OpPre (db : DB) : Op → Prop
  | Op.claim g _ _ => giftExists db g
  | Op.join g _ _ => giftExists db g
  | _ => True

/-- Store states reachable from the fresh store by events satisfying their
preconditions. -/
inductive Reachable : DB → Prop
  | init : Reachable initDB
  | step {db : DB} {op : Op} : Reachable db → OpPre db op → Reachable (applyOp db op)

/-- C1's consistency invariant: an existing gift outside `bought` and
`already_has` is `available` exactly when its contribution set is empty. -/
def statusInv (db : DB) : Prop :=
  ∀ g ∈ db.gifts, g.status ≠ GiftStatus.bought → g.status ≠ GiftStatus.already_has →
    (g.status = GiftStatus.available ↔ db.get_gift_buyers g.id = [])

/-- Referential integrity: every buyer row points at an existing gift. -/
def refInt (db : DB) : Prop :=
  ∀ b ∈ db.buyers, ∃ g ∈ db.gifts, g.id = b.gift_id

/-- All allocated gift ids are below the AUTOINCREMENT counter. -/
def idBound (db : DB) : Prop :=
  ∀ g ∈ db.gifts, g.id < db.next_gift_id

/-- C5's invariant: at most one buyer row per (gift, actor) pair. -/
def buyersUnique (db : DB) : Prop :=
  ∀ g u : Nat,
    (db.buyers.filter (fun b => decide (b.gift_id = g ∧ b.user_id = u))).length ≤ 1

/-- The conjunction of the store invariants maintained by every event. -/
def Inv (db : DB) : Prop :=
  statusInv db ∧ refInt db ∧ buyersUnique db ∧ idBound db

/-- The actions offered on the gift-detail screen (`show_gift_details`
keyboard rows, modulo captions). -/
inductive GiftAction
  | claimBtn
  | shareBtn
  | boughtBtn
  | unclaimBtn
  | alreadyHasBtn
  | deleteBtn
  | backBtn
deriving DecidableEq, Repr

/-- The keyboard built by `show_gift_details` for a gift of the given
status, as seen by a viewer who is/is not among the buyers and is/is not an
administrator. -/
def detailKeyboard (status : GiftStatus) (userIsBuyer isAdminUser : Bool) : List GiftAction :=
  (if status = GiftStatus.available then [GiftAction.claimBtn, GiftAction.shareBtn]
   else if status = GiftStatus.claimed then
     (if userIsBuyer then [GiftAction.boughtBtn, GiftAction.unclaimBtn]
      else [GiftAction.shareBtn])
   else []) ++
  (if ¬ (status = GiftStatus.already_has ∨ status = GiftStatus.bought) then
     [GiftAction.alreadyHasBtn]
   else []) ++
  (if isAdminUser then [GiftAction.deleteBtn] else []) ++
  [GiftAction.backBtn]

/-- Per-actor scratch state of the add-gift conversation
(`context.user_data`): the keys `new_gift_name` and `new_gift_price`,
each absent until its step stores it. -/
structure UserData where
  new_gift_name : Option String
  new_gift_price : Option (Option Int)
deriving DecidableEq, Repr

/-- The conversation states of the add-gift flow. -/
inductive AddGiftStep
  | adding_gift_name
  | adding_gift_price
  | adding_gift_category
deriving DecidableEq, Repr

/-- bot.py `add_gift_price`: on a successful parse store the price and move
to the category step; on ValueError re-prompt the price step with the
scratch state untouched. -/
def add_gift_price (ud : UserData) (text : List Char) : UserData × AddGiftStep :=
  match parse_price text with
  | some n => ({ ud with new_gift_price := some (some n) }, AddGiftStep.adding_gift_category)
  | none => (ud, AddGiftStep.adding_gift_price)

/-- bot.py `skip_price`: record an absent price and move to the category
step. -/
def skip_price (ud : UserData) : UserData × AddGiftStep :=
  ({ ud with new_gift_price := some none }, AddGiftStep.adding_gift_category)

/-- Example store: the fresh store after Alice creates gift 1. -/
def exDB1 : DB := applyOp initDB (Op.create 5 "Alice" "Bike" (some 3000) "hobby")

/-- Example store: gift 1 solo-claimed by Alice. -/
def exDB2 : DB := applyOp exDB1 (Op.claim 1 5 "Alice")

/-- Example store: gift 1 marked bought (buyers retained). -/
def exDB3 : DB := applyOp exDB2 (Op.markBought 1)

/-- Example store: Alice has pledged 3000 on her claimed gift 1. -/
def exDB4 : DB := applyOp exDB2 (Op.setAmount 1 5 3000)

/-- The bought gift row of `exDB3`. -/
def boughtGift : Gift := ⟨1, "Bike", some 3000, "hobby", GiftStatus.bought, 5, "Alice"⟩

/-- Example store with the birthday person (id 7) banned and no admins. -/
def dbBanned7 : DB := initDB.ban_user 7 (some "Birthday")

/-- Example scratch state after entering the gift name. -/
def udEx : UserData := ⟨some "Bike", none⟩

theorem get_gift_buyers_nil_iff (db : DB) (g : Nat) :
    db.get_gift_buyers g = [] ↔ ∀ b ∈ db.buyers, ¬ b.gift_id = g := by
  simp [DB.get_gift_buyers, List.filter_eq_nil_iff]

theorem statusInv_iff (db : DB) :
    statusInv db ↔
      ∀ g ∈ db.gifts, g.status ≠ GiftStatus.bought → g.status ≠ GiftStatus.already_has →
        (g.status = GiftStatus.available ↔ ∀ b ∈ db.buyers, ¬ b.gift_id = g.id) := by
  unfold statusInv
  simp only [get_gift_buyers_nil_iff]

theorem length_filter_map_eq {α : Type} (f : α → α) (p : α → Bool)
    (hf : ∀ a, p (f a) = p a) (l : List α) :
    ((l.map f).filter p).length = (l.filter p).length := by
  induction l with
  | nil => rfl
  | cons a t ih =>
    by_cases hp : p a = true
    · simp [List.filter_cons, hf, hp, ih]
    · simp [List.filter_cons, hf, hp, ih]

theorem length_filter_filter_le {α : Type} (p q : α → Bool) (l : List α) :
    ((l.filter q).filter p).length ≤ (l.filter p).length :=
  ((List.filter_sublist l).filter p).length_le

theorem inv_initDB : Inv initDB := by
  refine ⟨?_, ?_, ?_, ?_⟩
  · intro x hx
    simp [initDB] at hx
  · intro x hx
    simp [initDB] at hx
  · intro g u
    simp [initDB]
  · intro x hx
    simp [initDB] at hx

theorem inv_of_fields_eq {db db' : DB} (h : Inv db) (hg : db'.gifts = db.gifts)
    (hb : db'.buyers = db.buyers) (hn : db.next_gift_id ≤ db'.next_gift_id) : Inv db' := by
  obtain ⟨h1, h2, h3, h4⟩ := h
  refine ⟨?_, ?_, ?_, ?_⟩
  · rw [statusInv_iff, hg, hb]
    rw [statusInv_iff] at h1
    exact h1
  · unfold refInt at *
    rw [hg, hb]
    exact h2
  · unfold buyersUnique at *
    rw [hb]
    exact h3
  · unfold idBound at *
    rw [hg]
    intro g hgm
    exact lt_of_lt_of_le (h4 g hgm) hn

theorem start_gifts (db : DB) (u : Nat) (un : Option String) (fn : String) :
    (start db u un fn).gifts = db.gifts := by
  unfold start
  dsimp only
  split
  · rfl
  · split <;> rfl

theorem start_buyers (db : DB) (u : Nat) (un : Option String) (fn : String) :
    (start db u un fn).buyers = db.buyers := by
  unfold start
  dsimp only
  split
  · rfl
  · split <;> rfl

theorem start_next (db : DB) (u : Nat) (un : Option String) (fn : String) :
    (start db u un fn).next_gift_id = db.next_gift_id := by
  unfold start
  dsimp only
  split
  · rfl
  · split <;> rfl

theorem save_fact_gifts (db : DB) (u : Nat) (t : List Char) :
    (save_fact db u t).1.gifts = db.gifts := by
  unfold save_fact
  dsimp only
  split
  · rfl
  · split <;> rfl

theorem save_fact_buyers (db : DB) (u : Nat) (t : List Char) :
    (save_fact db u t).1.buyers = db.buyers := by
  unfold save_fact
  dsimp only
  split
  · rfl
  · split <;> rfl

theorem save_fact_next (db : DB) (u : Nat) (t : List Char) :
    (save_fact db u t).1.next_gift_id = db.next_gift_id := by
  unfold save_fact
  dsimp only
  split
  · rfl
  · split <;> rfl

theorem add_gift_buyers (db : DB) (nm : String) (pr : Option Int) (cat : String)
    (uid : Nat) (un : String) : (db.add_gift nm pr cat uid un).1.buyers = db.buyers := rfl

theorem add_gift_gifts (db : DB) (nm : String) (pr : Option Int) (cat : String)
    (uid : Nat) (un : String) :
    (db.add_gift nm pr cat uid un).1.gifts =
      db.gifts ++ [⟨db.next_gift_id, nm, pr, cat, GiftStatus.available, uid, un⟩] := rfl

theorem add_gift_next (db : DB) (nm : String) (pr : Option Int) (cat : String)
    (uid : Nat) (un : String) :
    (db.add_gift nm pr cat uid un).1.next_gift_id = db.next_gift_id + 1 := rfl

theorem claim_gift_buyers (db : DB) (g u : Nat) (un : String) :
    (claim_gift db g u un).buyers =
      db.buyers.filter (fun b => decide (¬ (b.gift_id = g ∧ b.user_id = u)))
        ++ [⟨g, u, un, none⟩] := rfl

theorem claim_gift_gifts (db : DB) (g u : Nat) (un : String) :
    (claim_gift db g u un).gifts =
      db.gifts.map (fun gi => if gi.id = g then { gi with status := GiftStatus.claimed }
        else gi) := rfl

theorem claim_gift_next (db : DB) (g u : Nat) (un : String) :
    (claim_gift db g u un).next_gift_id = db.next_gift_id := rfl

theorem share_gift_eq_pos {db : DB} {g u : Nat} {un : String}
    (h : (db.get_gift_buyers g).any (fun b => decide (b.user_id = u)) = true) :
    share_gift db g u un = db := by
  unfold share_gift
  rw [if_pos h]

theorem share_gift_eq_neg {db : DB} {g u : Nat} {un : String}
    (h : ¬ (db.get_gift_buyers g).any (fun b => decide (b.user_id = u)) = true) :
    share_gift db g u un = claim_gift db g u un := by
  unfold share_gift
  rw [if_neg h]
  rfl

theorem unclaim_gift_eq_pos {db : DB} {g u : Nat}
    (h : ((db.remove_buyer g u).get_gift_buyers g).isEmpty = true) :
    unclaim_gift db g u =
      (db.remove_buyer g u).update_gift_status g GiftStatus.available := by
  unfold unclaim_gift
  dsimp only
  rw [if_pos h]

theorem unclaim_gift_eq_neg {db : DB} {g u : Nat}
    (h : ¬ ((db.remove_buyer g u).get_gift_buyers g).isEmpty = true) :
    unclaim_gift db g u = db.remove_buyer g u := by
  unfold unclaim_gift
  dsimp only
  rw [if_neg h]

theorem setStatus_id (g0 : Gift) (gid : Nat) (s : GiftStatus) :
    (if g0.id = gid then { g0 with status := s } else g0).id = g0.id := by
  split <;> rfl

theorem setAmount_gift_id (b : Buyer) (g u : Nat) (a : Int) :
    ((if b.gift_id = g ∧ b.user_id = u then { b with amount := some a } else b) : Buyer).gift_id
      = b.gift_id := by
  split <;> rfl

theorem setAmount_user_id (b : Buyer) (g u : Nat) (a : Int) :
    ((if b.gift_id = g ∧ b.user_id = u then { b with amount := some a } else b) : Buyer).user_id
      = b.user_id := by
  split <;> rfl

theorem forall_filter_ne_iff {l : List Buyer} {g x : Nat} (hne : ¬ x = g) :
    (∀ b ∈ l.filter (fun b => decide (¬ b.gift_id = g)), ¬ b.gift_id = x) ↔
      ∀ b ∈ l, ¬ b.gift_id = x := by
  constructor
  · intro h b hb heq
    by_cases hg : b.gift_id = g
    · rw [hg] at heq
      exact hne heq.symm
    · exact h b (List.mem_filter.2 ⟨hb, by simpa using hg⟩) heq
  · intro h b hb
    exact h b (List.mem_filter.1 hb).1

theorem forall_filter_key_ne_iff {l : List Buyer} {g u x : Nat} (hne : ¬ x = g) :
    (∀ b ∈ l.filter (fun b => decide (¬ (b.gift_id = g ∧ b.user_id = u))), ¬ b.gift_id = x) ↔
      ∀ b ∈ l, ¬ b.gift_id = x := by
  constructor
  · intro h b hb heq
    by_cases hk : b.gift_id = g ∧ b.user_id = u
    · rw [hk.1] at heq
      exact hne heq.symm
    · exact h b (List.mem_filter.2 ⟨hb, by simp only [decide_eq_true_eq]; exact hk⟩) heq
  · intro h b hb
    exact h b (List.mem_filter.1 hb).1

theorem forall_ne_add_buyer_iff {l : List Buyer} {g u x : Nat} {un : String} {a : Option Int}
    (hne : ¬ x = g) :
    (∀ b ∈ l.filter (fun b => decide (¬ (b.gift_id = g ∧ b.user_id = u)))
        ++ [(⟨g, u, un, a⟩ : Buyer)], ¬ b.gift_id = x) ↔
      ∀ b ∈ l, ¬ b.gift_id = x := by
  constructor
  · intro h
    rw [← forall_filter_key_ne_iff (u := u) hne]
    intro b hb
    exact h b (List.mem_append_left _ hb)
  · intro h b hb
    rcases List.mem_append.1 hb with hb | hb
    · exact (forall_filter_key_ne_iff (u := u) hne).2 h b hb
    · rw [List.mem_singleton] at hb
      subst hb
      intro heq
      exact hne (heq.symm)

theorem inv_create (db : DB) (nm : String) (pr : Option Int) (cat : String)
    (uid : Nat) (un : String) (h : Inv db) : Inv (db.add_gift nm pr cat uid un).1 := by
  obtain ⟨h1, h2, h3, h4⟩ := h
  rw [statusInv_iff] at h1
  refine ⟨?_, ?_, ?_, ?_⟩
  · rw [statusInv_iff, add_gift_gifts, add_gift_buyers]
    intro g hg hb hah
    rcases List.mem_append.1 hg with hg | hg
    · exact h1 g hg hb hah
    · rw [List.mem_singleton] at hg
      subst hg
      constructor
      · intro _ b hbm heq
        obtain ⟨g0, hg0, hid⟩ := h2 b hbm
        have hlt := h4 g0 hg0
        rw [hid] at hlt
        simp only [] at heq
        omega
      · intro _
        rfl
  · intro b hbm
    rw [add_gift_buyers] at hbm
    obtain ⟨g0, hg0, hid⟩ := h2 b hbm
    exact ⟨g0, by rw [add_gift_gifts]; exact List.mem_append_left _ hg0, hid⟩
  · intro g u
    rw [add_gift_buyers]
    exact h3 g u
  · intro g hg
    rw [add_gift_gifts] at hg
    rw [add_gift_next]
    rcases List.mem_append.1 hg with hg | hg
    · exact Nat.lt_succ_of_lt (h4 g hg)
    · rw [List.mem_singleton] at hg
      subst hg
      exact Nat.lt_succ_self _

theorem inv_markBought (db : DB) (gid : Nat) (h : Inv db) : Inv (mark_bought db gid) := by
  obtain ⟨h1, h2, h3, h4⟩ := h
  rw [statusInv_iff] at h1
  refine ⟨?_, ?_, ?_, ?_⟩
  · rw [statusInv_iff]
    intro gi hgi hb hah
    obtain ⟨g0, hg0, hfeq⟩ := List.mem_map.1 hgi
    by_cases hid : g0.id = gid
    · rw [if_pos hid] at hfeq
      subst hfeq
      exact absurd rfl hb
    · rw [if_neg hid] at hfeq
      subst hfeq
      exact h1 g0 hg0 hb hah
  · intro b hbm
    obtain ⟨g0, hg0, hid⟩ := h2 b hbm
    exact ⟨_, List.mem_map_of_mem _ hg0, by rw [setStatus_id]; exact hid⟩
  · exact h3
  · intro gi hgi
    obtain ⟨g0, hg0, hfeq⟩ := List.mem_map.1 hgi
    subst hfeq
    rw [setStatus_id]
    exact h4 g0 hg0

theorem inv_markAlreadyHas (db : DB) (gid : Nat) (h : Inv db) :
    Inv (mark_already_has db gid) := by
  obtain ⟨h1, h2, h3, h4⟩ := h
  rw [statusInv_iff] at h1
  refine ⟨?_, ?_, ?_, ?_⟩
  · rw [statusInv_iff]
    intro gi hgi hb hah
    obtain ⟨g0, hg0, hfeq⟩ := List.mem_map.1 hgi
    by_cases hid : g0.id = gid
    · rw [if_pos hid] at hfeq
      subst hfeq
      exact absurd rfl hah
    · rw [if_neg hid] at hfeq
      subst hfeq
      rw [h1 g0 hg0 hb hah]
      exact (forall_filter_ne_iff hid).symm
  · intro b hbm
    have hbm' := List.mem_filter.1 hbm
    obtain ⟨g0, hg0, hid⟩ := h2 b hbm'.1
    exact ⟨_, List.mem_map_of_mem _ hg0, by rw [setStatus_id]; exact hid⟩
  · intro g u
    exact le_trans (length_filter_filter_le _ _ _) (h3 g u)
  · intro gi hgi
    obtain ⟨g0, hg0, hfeq⟩ := List.mem_map.1 hgi
    subst hfeq
    rw [setStatus_id]
    exact h4 g0 hg0

theorem inv_deleteGift (db : DB) (gid : Nat) (h : Inv db) : Inv (db.delete_gift gid) := by
  obtain ⟨h1, h2, h3, h4⟩ := h
  rw [statusInv_iff] at h1
  refine ⟨?_, ?_, ?_, ?_⟩
  · rw [statusInv_iff]
    intro gi hgi hb hah
    have hgi' := List.mem_filter.1 hgi
    have hne : ¬ gi.id = gid := by simpa using hgi'.2
    rw [h1 gi hgi'.1 hb hah]
    exact (forall_filter_ne_iff hne).symm
  · intro b hbm
    have hbm' := List.mem_filter.1 hbm
    have hbne : ¬ b.gift_id = gid := by simpa using hbm'.2
    obtain ⟨g0, hg0, hid⟩ := h2 b hbm'.1
    refine ⟨g0, List.mem_filter.2 ⟨hg0, ?_⟩, hid⟩
    simp only [decide_eq_true_eq]
    rw [hid]
    exact hbne
  · intro g u
    exact le_trans (length_filter_filter_le _ _ _) (h3 g u)
  · intro gi hgi
    exact h4 gi (List.mem_filter.1 hgi).1

theorem inv_claim (db : DB) (g u : Nat) (un : String) (h : Inv db) (hex : giftExists db g) :
    Inv (claim_gift db g u un) := by
  obtain ⟨h1, h2, h3, h4⟩ := h
  rw [statusInv_iff] at h1
  refine ⟨?_, ?_, ?_, ?_⟩
  · rw [statusInv_iff]
    intro gi hgi hb hah
    rw [claim_gift_gifts] at hgi
    obtain ⟨g0, hg0, hfeq⟩ := List.mem_map.1 hgi
    by_cases hid : g0.id = g
    · rw [if_pos hid] at hfeq
      subst hfeq
      constructor
      · intro habs
        exact GiftStatus.noConfusion habs
      · intro hall
        exfalso
        have hmem : (⟨g, u, un, none⟩ : Buyer) ∈ (claim_gift db g u un).buyers := by
          rw [claim_gift_buyers]
          exact List.mem_append_right _ (List.mem_singleton.2 rfl)
        exact hall _ hmem hid.symm
    · rw [if_neg hid] at hfeq
      subst hfeq
      rw [h1 g0 hg0 hb hah]
      exact (forall_ne_add_buyer_iff hid).symm
  · intro b hbm
    rw [claim_gift_buyers] at hbm
    rw [claim_gift_gifts]
    rcases List.mem_append.1 hbm with hbm | hbm
    · obtain ⟨g0, hg0, hid⟩ := h2 b (List.mem_filter.1 hbm).1
      exact ⟨_, List.mem_map_of_mem _ hg0, by rw [setStatus_id]; exact hid⟩
    · rw [List.mem_singleton] at hbm
      subst hbm
      obtain ⟨g1, hg1, hid1⟩ := hex
      exact ⟨_, List.mem_map_of_mem _ hg1, by rw [setStatus_id]; exact hid1⟩
  · intro x y
    rw [claim_gift_buyers, List.filter_append, List.filter_filter, List.length_append]
    by_cases hxy : x = g ∧ y = u
    · have hA : db.buyers.filter (fun b =>
          decide (b.gift_id = x ∧ b.user_id = y) &&
            decide (¬ (b.gift_id = g ∧ b.user_id = u))) = [] := by
        rw [List.filter_eq_nil_iff]
        intro b _
        simp only [Bool.and_eq_true, decide_eq_true_eq]
        intro hcon
        exact hcon.2 ⟨hcon.1.1.trans hxy.1, hcon.1.2.trans hxy.2⟩
      rw [hA]
      simp only [List.length_nil, Nat.zero_add]
      exact List.length_filter_le _ _
    · have hB : ([(⟨g, u, un, none⟩ : Buyer)].filter
          (fun b => decide (b.gift_id = x ∧ b.user_id = y))) = [] := by
        rw [List.filter_eq_nil_iff]
        intro b hbm
        rw [List.mem_singleton] at hbm
        subst hbm
        simp only [decide_eq_true_eq]
        intro hc
        exact hxy ⟨hc.1.symm, hc.2.symm⟩
      rw [hB]
      simp only [List.length_nil, Nat.add_zero]
      calc (db.buyers.filter (fun b =>
              decide (b.gift_id = x ∧ b.user_id = y) &&
                decide (¬ (b.gift_id = g ∧ b.user_id = u)))).length
          ≤ (db.buyers.filter (fun b => decide (b.gift_id = x ∧ b.user_id = y))).length := by
            rw [← List.filter_filter]
            exact length_filter_filter_le _ _ _
        _ ≤ 1 := h3 x y
  · intro gi hgi
    rw [claim_gift_gifts] at hgi
    obtain ⟨g0, hg0, hfeq⟩ := List.mem_map.1 hgi
    subst hfeq
    rw [claim_gift_next, setStatus_id]
    exact h4 g0 hg0

theorem update_buyer_amount_buyers (db : DB) (g u : Nat) (a : Int) :
    (db.update_buyer_amount g u a).buyers =
      db.buyers.map (fun b =>
        if b.gift_id = g ∧ b.user_id = u then { b with amount := some a } else b) := rfl

theorem forall_ne_update_amount_iff (db : DB) (g u : Nat) (a : Int) (x : Nat) :
    (∀ b ∈ (db.update_buyer_amount g u a).buyers, ¬ b.gift_id = x) ↔
      ∀ b ∈ db.buyers, ¬ b.gift_id = x := by
  rw [update_buyer_amount_buyers, List.forall_mem_map]
  constructor
  · intro h b hb
    have hx := h b hb
    rwa [setAmount_gift_id] at hx
  · intro h b hb
    rw [setAmount_gift_id]
    exact h b hb

theorem inv_setAmount (db : DB) (g u : Nat) (a : Int) (h : Inv db) :
    Inv (db.update_buyer_amount g u a) := by
  obtain ⟨h1, h2, h3, h4⟩ := h
  rw [statusInv_iff] at h1
  refine ⟨?_, ?_, ?_, ?_⟩
  · rw [statusInv_iff]
    intro gi hgi hb hah
    rw [h1 gi hgi hb hah]
    exact (forall_ne_update_amount_iff db g u a gi.id).symm
  · intro b hbm
    rw [update_buyer_amount_buyers] at hbm
    obtain ⟨b0, hb0, hfeq⟩ := List.mem_map.1 hbm
    obtain ⟨g0, hg0, hid⟩ := h2 b0 hb0
    refine ⟨g0, hg0, ?_⟩
    rw [← hfeq, setAmount_gift_id]
    exact hid
  · intro x y
    rw [update_buyer_amount_buyers]
    rw [length_filter_map_eq]
    · exact h3 x y
    · intro b
      simp only [setAmount_gift_id, setAmount_user_id]
  · exact h4

theorem remove_buyer_buyers (db : DB) (g u : Nat) :
    (db.remove_buyer g u).buyers =
      db.buyers.filter (fun b => decide (¬ (b.gift_id = g ∧ b.user_id = u))) := rfl

theorem inv_withdraw (db : DB) (g u : Nat) (h : Inv db) : Inv (unclaim_gift db g u) := by
  obtain ⟨h1, h2, h3, h4⟩ := h
  rw [statusInv_iff] at h1
  by_cases hc : ((db.remove_buyer g u).get_gift_buyers g).isEmpty = true
  · rw [unclaim_gift_eq_pos hc]
    have hnil : ∀ b ∈ (db.remove_buyer g u).buyers, ¬ b.gift_id = g :=
      (get_gift_buyers_nil_iff _ g).1 (List.isEmpty_iff.1 hc)
    refine ⟨?_, ?_, ?_, ?_⟩
    · rw [statusInv_iff]
      intro gi hgi hb hah
      obtain ⟨g0, hg0, hfeq⟩ := List.mem_map.1 hgi
      have hg0m : g0 ∈ db.gifts := hg0
      by_cases hid : g0.id = g
      · rw [if_pos hid] at hfeq
        subst hfeq
        constructor
        · intro _ b hbm
          rw [hid]
          exact hnil b hbm
        · intro _
          rfl
      · rw [if_neg hid] at hfeq
        subst hfeq
        rw [h1 g0 hg0m hb hah]
        exact (forall_filter_key_ne_iff hid).symm
    · intro b hbm
      obtain ⟨g0, hg0, hid⟩ := h2 b (List.mem_filter.1 hbm).1
      exact ⟨_, List.mem_map_of_mem _ hg0, by rw [setStatus_id]; exact hid⟩
    · intro x y
      exact le_trans (length_filter_filter_le _ _ _) (h3 x y)
    · intro gi hgi
      obtain ⟨g0, hg0, hfeq⟩ := List.mem_map.1 hgi
      subst hfeq
      rw [setStatus_id]
      exact h4 g0 hg0
  · rw [unclaim_gift_eq_neg hc]
    refine ⟨?_, ?_, ?_, ?_⟩
    · rw [statusInv_iff]
      intro gi hgi hb hah
      have hgm : gi ∈ db.gifts := hgi
      by_cases hid : gi.id = g
      · constructor
        · intro hav
          exfalso
          apply hc
          rw [List.isEmpty_iff, get_gift_buyers_nil_iff]
          have hall := (get_gift_buyers_nil_iff db gi.id).1
            (((statusInv_iff db).2 h1 gi hgm hb hah).1 hav)
          intro b hbm heq
          exact hall b (List.mem_filter.1 hbm).1 (by rw [heq, hid])
        · intro hall
          exfalso
          apply hc
          rw [List.isEmpty_iff, get_gift_buyers_nil_iff]
          intro b hbm heq
          exact hall b hbm (by rw [heq, hid])
      · rw [h1 gi hgm hb hah]
        exact (forall_filter_key_ne_iff hid).symm
    · intro b hbm
      exact h2 b (List.mem_filter.1 hbm).1
    · intro x y
      exact le_trans (length_filter_filter_le _ _ _) (h3 x y)
    · exact h4

theorem inv_join (db : DB) (g u : Nat) (un : String) (h : Inv db) (hex : giftExists db g) :
    Inv (share_gift db g u un) := by
  by_cases hc : (db.get_gift_buyers g).any (fun b => decide (b.user_id = u)) = true
  · rw [share_gift_eq_pos hc]
    exact h
  · rw [share_gift_eq_neg hc]
    exact inv_claim db g u un h hex

theorem inv_deleteOp (db : DB) (u g : Nat) (h : Inv db) :
    Inv (delete_gift_handler db u g) := by
  unfold delete_gift_handler
  split
  · exact inv_deleteGift db g h
  · exact h

theorem inv_sessionStart (db : DB) (u : Nat) (un : Option String) (fn : String)
    (h : Inv db) : Inv (start db u un fn) :=
  inv_of_fields_eq h (start_gifts db u un fn) (start_buyers db u un fn)
    (le_of_eq (start_next db u un fn).symm)

theorem inv_factOp (db : DB) (u : Nat) (t : List Char) (h : Inv db) :
    Inv (save_fact db u t).1 :=
  inv_of_fields_eq h (save_fact_gifts db u t) (save_fact_buyers db u t)
    (le_of_eq (save_fact_next db u t).symm)

theorem inv_applyOp {db : DB} {op : Op} (h : Inv db) (hpre : OpPre db op) :
    Inv (applyOp db op) := by
  cases op with
  | create uid un nm pr cat => exact inv_create db nm pr cat uid un h
  | claim g u un => exact inv_claim db g u un h hpre
  | join g u un => exact inv_join db g u un h hpre
  | setAmount g u a => exact inv_setAmount db g u a h
  | withdraw g u => exact inv_withdraw db g u h
  | markBought g => exact inv_markBought db g h
  | markAlreadyHas g => exact inv_markAlreadyHas db g h
  | deleteOp u g => exact inv_deleteOp db u g h
  | sessionStart u un fn => exact inv_sessionStart db u un fn h
  | banOp t n => exact inv_of_fields_eq h rfl rfl (le_refl _)
  | unbanOp t => exact inv_of_fields_eq h rfl rfl (le_refl _)
  | addAdminOp t n => exact inv_of_fields_eq h rfl rfl (le_refl _)
  | factOp u t => exact inv_factOp db u t h

theorem inv_reach {db : DB} (h : Reachable db) : Inv db := by
  induction h with
  | init => exact inv_initDB
  | step hr hpre ih => exact inv_applyOp ih hpre

theorem claim_gift_key_buyers (db : DB) (g u : Nat) (un : String) :
    (claim_gift db g u un).buyers.filter
        (fun b => decide (b.gift_id = g ∧ b.user_id = u)) = [⟨g, u, un, none⟩] := by
  rw [claim_gift_buyers, List.filter_append, List.filter_filter]
  have hA : db.buyers.filter (fun b =>
      decide (b.gift_id = g ∧ b.user_id = u) &&
        decide (¬ (b.gift_id = g ∧ b.user_id = u))) = [] := by
    rw [List.filter_eq_nil_iff]
    intro b _
    simp only [Bool.and_eq_true, decide_eq_true_eq]
    intro hcon
    exact hcon.2 hcon.1
  rw [hA]
  simp

theorem reach_exDB1 : Reachable exDB1 :=
  Reachable.step Reachable.init trivial

theorem exists_gift1_exDB1 : giftExists exDB1 1 := by
  refine ⟨⟨1, "Bike", some 3000, "hobby", GiftStatus.available, 5, "Alice"⟩, ?_, rfl⟩
  simp [exDB1, applyOp, DB.add_gift, initDB]

theorem reach_exDB2 : Reachable exDB2 :=
  Reachable.step reach_exDB1 exists_gift1_exDB1

theorem reach_exDB3 : Reachable exDB3 :=
  Reachable.step reach_exDB2 trivial

theorem reach_exDB4 : Reachable exDB4 :=
  Reachable.step reach_exDB2 trivial

theorem unclaim_gift_buyers (db : DB) (g u : Nat) :
    (unclaim_gift db g u).buyers =
      db.buyers.filter (fun b => decide (¬ (b.gift_id = g ∧ b.user_id = u))) := by
  unfold unclaim_gift
  dsimp only
  split
  · rfl
  · rfl

theorem remove_buyer_rest (db : DB) (g u : Nat) :
    (db.remove_buyer g u).get_gift_buyers g =
      db.buyers.filter (fun b => decide (b.gift_id = g ∧ ¬ b.user_id = u)) := by
  rw [show (db.remove_buyer g u).get_gift_buyers g =
      (db.buyers.filter
          (fun b => decide (¬ (b.gift_id = g ∧ b.user_id = u)))).filter
        (fun b => decide (b.gift_id = g)) from rfl,
    List.filter_filter]
  apply List.filter_congr
  intro b _
  by_cases h1 : b.gift_id = g <;> by_cases h2 : b.user_id = u <;> simp [h1, h2]

theorem count_status_length (l : List Gift) :
    (l.filter (fun g => decide (g.status = GiftStatus.available))).length +
      (l.filter (fun g => decide (g.status = GiftStatus.claimed))).length +
      (l.filter (fun g => decide (g.status = GiftStatus.bought))).length +
      (l.filter (fun g => decide (g.status = GiftStatus.already_has))).length
      = l.length := by
  induction l with
  | nil => rfl
  | cons g t ih =>
    cases hs : g.status <;> simp [List.filter_cons, hs] <;> omega

/-- C1: after any single lifecycle operation settles — i.e. in every store
state reachable from the fresh store by operations whose §4.2
preconditions held when delivered — every existing gift whose status is
neither `bought` nor `already_has` has status `available` precisely when
its contribution set is empty. -/
theorem C1_status_iff_contributions (db : DB) (h : Reachable db) : statusInv db :=
  (inv_reach h).1

/-- Witness for C1: the invariant holds at the concrete reachable store
`exDB2` (one gift, claimed by one contributor). -/
theorem C1_status_iff_contributions_witness : statusInv exDB2 :=
  C1_status_iff_contributions exDB2 reach_exDB2

/-- C2: withdrawing deletes exactly the acting contributor's record
(membership characterization of the buyers table afterwards); if no
contributor remains the gift's status is set to `available`, and
otherwise the gifts table is left completely unchanged. -/
theorem C2_withdraw_exact (db : DB) (g u : Nat)
    (h : ∃ b ∈ db.buyers, b.gift_id = g ∧ b.user_id = u) :
    (∀ b : Buyer, b ∈ (unclaim_gift db g u).buyers ↔
        (b ∈ db.buyers ∧ ¬ (b.gift_id = g ∧ b.user_id = u))) ∧
      (db.buyers.filter (fun b => decide (b.gift_id = g ∧ ¬ b.user_id = u)) = [] →
        (unclaim_gift db g u).gifts =
          db.gifts.map (fun gi =>
            if gi.id = g then { gi with status := GiftStatus.available } else gi)) ∧
      (db.buyers.filter (fun b => decide (b.gift_id = g ∧ ¬ b.user_id = u)) ≠ [] →
        (unclaim_gift db g u).gifts = db.gifts) := by
  refine ⟨?_, ?_, ?_⟩
  · intro b
    rw [unclaim_gift_buyers, List.mem_filter]
    simp only [decide_eq_true_eq]
  · intro hrest
    rw [unclaim_gift_eq_pos (by rw [List.isEmpty_iff, remove_buyer_rest]; exact hrest)]
    rfl
  · intro hrest
    rw [unclaim_gift_eq_neg (by rw [List.isEmpty_iff, remove_buyer_rest]; exact hrest)]
    rfl

/-- Witness for C2: Alice, sole contributor of gift 1 in `exDB2`,
withdraws; the gift's status is reset to `available`. -/
theorem C2_withdraw_exact_witness :
    (unclaim_gift exDB2 1 5).gifts =
      exDB2.gifts.map (fun gi =>
        if gi.id = 1 then { gi with status := GiftStatus.available } else gi) :=
  (C2_withdraw_exact exDB2 1 5 (by decide)).2.1 (by decide)

/-- C5: in every reachable store a (gift, actor) pair has at most one
contribution record, and a repeat solo claim overwrites: after
`claim_gift` the records keyed by that pair are exactly the single fresh
row with no pledge amount. -/
theorem C5_no_duplicate_contribution (db : DB) (h : Reachable db) :
    buyersUnique db ∧
      ∀ (g u : Nat) (un : String),
        (claim_gift db g u un).buyers.filter
          (fun b => decide (b.gift_id = g ∧ b.user_id = u)) = [⟨g, u, un, none⟩] :=
  ⟨(inv_reach h).2.2.1, fun g u un => claim_gift_key_buyers db g u un⟩

/-- Witness for C5: re-claiming gift 1 in the reachable store `exDB2`
leaves exactly one record for the pair. -/
theorem C5_no_duplicate_contribution_witness :
    (claim_gift exDB2 1 5 "Alicia").buyers.filter
      (fun b => decide (b.gift_id = 1 ∧ b.user_id = 5)) = [⟨1, 5, "Alicia", none⟩] :=
  (C5_no_duplicate_contribution exDB2 reach_exDB2).2 1 5 "Alicia"

/-- C6: for every store state the four per-status counts of `get_stats`
sum to the total, and on a store with no gifts and no contributions every
field of `get_stats` is zero. -/
theorem C6_stats_partition (db : DB) :
    (db.get_stats.available + db.get_stats.claimed + db.get_stats.bought +
        db.get_stats.already_has = db.get_stats.total) ∧
      (db.gifts = [] → db.buyers = [] → db.get_stats = ⟨0, 0, 0, 0, 0, 0, 0⟩) := by
  constructor
  · exact count_status_length db.gifts
  · intro hg hb
    unfold DB.get_stats
    rw [hg, hb]
    rfl

/-- Witness for C6: the empty store reports all-zero statistics. -/
theorem C6_stats_partition_witness : initDB.get_stats = ⟨0, 0, 0, 0, 0, 0, 0⟩ :=
  (C6_stats_partition initDB).2 rfl rfl

/-- C7: marking an existing gift as already-has leaves a gift with that id
in status `already_has`, empties the gift's contribution set, and the
gift no longer appears in `get_user_gifts` for any actor. -/
theorem C7_already_has_clears (db : DB) (g : Nat) (h : giftExists db g) :
    ((mark_already_has db g).get_gift_buyers g = []) ∧
      (∃ gi ∈ (mark_already_has db g).gifts,
        gi.id = g ∧ gi.status = GiftStatus.already_has) ∧
      (∀ gi ∈ (mark_already_has db g).gifts,
        gi.id = g → gi.status = GiftStatus.already_has) ∧
      ∀ u : Nat, ∀ p ∈ (mark_already_has db g).get_user_gifts u, ¬ p.1.id = g := by
  refine ⟨?_, ?_, ?_, ?_⟩
  · rw [get_gift_buyers_nil_iff]
    intro b hbm
    have := (List.mem_filter.1 hbm).2
    simpa using this
  · obtain ⟨g0, hg0, hid⟩ := h
    refine ⟨{ g0 with status := GiftStatus.already_has }, ?_, hid, rfl⟩
    have hmem := List.mem_map_of_mem
      (fun gi => if gi.id = g then { gi with status := GiftStatus.already_has } else gi) hg0
    dsimp only at hmem
    rw [if_pos hid] at hmem
    exact hmem
  · intro gi hgi hid
    obtain ⟨g0, hg0, hfeq⟩ := List.mem_map.1 hgi
    by_cases h0 : g0.id = g
    · rw [if_pos h0] at hfeq
      rw [← hfeq]
    · rw [if_neg h0] at hfeq
      subst hfeq
      exact absurd hid h0
  · intro u p hp
    obtain ⟨gi, hgi, hp2⟩ := List.mem_flatMap.1 hp
    obtain ⟨b, hb, hpe⟩ := List.mem_map.1 hp2
    have hb2 := List.mem_filter.1 hb
    have hbne : ¬ b.gift_id = g := by
      have := (List.mem_filter.1 hb2.1).2
      simpa using this
    intro hpg
    apply hbne
    have hbg : b.gift_id = gi.id := by
      have := hb2.2
      simp only [decide_eq_true_eq] at this
      exact this.1
    rw [hbg, ← hpe] at *
    rw [← hpe] at hpg
    exact hpg

/-- Witness for C7: marking gift 1 of `exDB4` (claimed, one pledge)
already-has empties its contribution set. -/
theorem C7_already_has_clears_witness :
    (mark_already_has exDB4 1).get_gift_buyers 1 = [] :=
  (C7_already_has_clears exDB4 1 (by unfold giftExists; decide)).1

/-- C10: if an actor already holds a contribution carrying a pledged
amount on a gift, a repeat solo claim replaces it with a fresh record
whose amount is absent — the previous pledge is discarded. -/
theorem C10_reclaim_discards_pledge (db : DB) (g u : Nat) (un0 un : String) (a : Int)
    (h : (⟨g, u, un0, some a⟩ : Buyer) ∈ db.buyers) :
    (claim_gift db g u un).buyers.filter
      (fun b => decide (b.gift_id = g ∧ b.user_id = u)) = [⟨g, u, un, none⟩] :=
  claim_gift_key_buyers db g u un

/-- Witness for C10: Alice pledged 3000 on gift 1 in `exDB4`; re-claiming
resets her stored amount to absent. -/
theorem C10_reclaim_discards_pledge_witness :
    (claim_gift exDB4 1 5 "Alice").buyers.filter
      (fun b => decide (b.gift_id = 1 ∧ b.user_id = 5)) = [⟨1, 5, "Alice", none⟩] :=
  C10_reclaim_discards_pledge exDB4 1 5 "Alice" "Alice" 3000 (by decide)

theorem gift_survives (db : DB) (op : Op) (gi : Gift) (hgi : gi ∈ db.gifts)
    (hnd : ∀ u g : Nat, op = Op.deleteOp u g → is_admin db u = false) :
    ∃ gi2 ∈ (applyOp db op).gifts, gi2.id = gi.id := by
  cases op with
  | create uid un nm pr cat =>
    refine ⟨gi, ?_, rfl⟩
    simp only [applyOp]
    rw [add_gift_gifts]
    exact List.mem_append_left _ hgi
  | claim g u un =>
    simp only [applyOp]
    rw [claim_gift_gifts]
    exact ⟨_, List.mem_map_of_mem _ hgi, setStatus_id gi g GiftStatus.claimed⟩
  | join g u un =>
    simp only [applyOp]
    by_cases hc : (db.get_gift_buyers g).any (fun b => decide (b.user_id = u)) = true
    · rw [share_gift_eq_pos hc]
      exact ⟨gi, hgi, rfl⟩
    · rw [share_gift_eq_neg hc, claim_gift_gifts]
      exact ⟨_, List.mem_map_of_mem _ hgi, setStatus_id gi g GiftStatus.claimed⟩
  | setAmount g u a => exact ⟨gi, hgi, rfl⟩
  | withdraw g u =>
    simp only [applyOp]
    by_cases hc : ((db.remove_buyer g u).get_gift_buyers g).isEmpty = true
    · rw [unclaim_gift_eq_pos hc]
      exact ⟨_, List.mem_map_of_mem _ hgi, setStatus_id gi g GiftStatus.available⟩
    · rw [unclaim_gift_eq_neg hc]
      exact ⟨gi, hgi, rfl⟩
  | markBought g =>
    exact ⟨_, List.mem_map_of_mem _ hgi, setStatus_id gi g GiftStatus.bought⟩
  | markAlreadyHas g =>
    exact ⟨_, List.mem_map_of_mem _ hgi, setStatus_id gi g GiftStatus.already_has⟩
  | deleteOp u g =>
    have hadm := hnd u g rfl
    simp only [applyOp, delete_gift_handler, hadm]
    exact ⟨gi, by simpa using hgi, rfl⟩
  | sessionStart u un fn =>
    refine ⟨gi, ?_, rfl⟩
    simp only [applyOp]
    rw [start_gifts]
    exact hgi
  | banOp t n => exact ⟨gi, hgi, rfl⟩
  | unbanOp t => exact ⟨gi, hgi, rfl⟩
  | addAdminOp t n => exact ⟨gi, hgi, rfl⟩
  | factOp u t =>
    refine ⟨gi, ?_, rfl⟩
    simp only [applyOp]
    rw [save_fact_gifts]
    exact hgi

/-- C3 is false as stated on the code: in the reachable store `exDB3` the
only gift is `bought`, yet a solo claim by the ordinary (non-admin) actor
6 changes its status to `claimed` — the claim/join/mark handlers perform
no status check. -/
theorem C3_counterexample :
    exDB3.gifts.map Gift.status = [GiftStatus.bought] ∧
      Reachable exDB3 ∧
      is_admin exDB3 6 = false ∧
      (applyOp exDB3 (Op.claim 1 6 "Eve")).gifts.map Gift.status
        = [GiftStatus.claimed] :=
  ⟨by decide, reach_exDB3, by decide, by decide⟩

/-- C3 (amended): for a gift in `bought` or `already_has`, the detail view
offers an ordinary (non-administrator) actor no operation at all (only
the back button), and no event other than an administrator deletion
removes the gift from the store; the status itself, however, is not
protected by the raw handlers. -/
theorem C3_terminal_amended (db : DB) (op : Op) (gi : Gift) (hgi : gi ∈ db.gifts)
    (hterm : gi.status = GiftStatus.bought ∨ gi.status = GiftStatus.already_has)
    (hnd : ∀ u g : Nat, op = Op.deleteOp u g → is_admin db u = false) :
    (∀ b : Bool, detailKeyboard gi.status b false = [GiftAction.backBtn]) ∧
      (applyOp db op).gifts.any (fun gi2 => decide (gi2.id = gi.id)) = true := by
  constructor
  · intro b
    rcases hterm with hs | hs <;> rw [hs] <;> cases b <;> rfl
  · rw [List.any_eq_true]
    obtain ⟨gi2, hgi2, hid⟩ := gift_survives db op gi hgi hnd
    exact ⟨gi2, hgi2, by simpa using hid⟩

/-- Witness for C3 (amended) at the bought gift of `exDB3` under a claim
event by the ordinary actor 6. -/
theorem C3_terminal_amended_witness :
    detailKeyboard GiftStatus.bought true false = [GiftAction.backBtn] ∧
      (applyOp exDB3 (Op.claim 1 6 "Eve")).gifts.any
        (fun gi2 => decide (gi2.id = boughtGift.id)) = true := by
  have h := C3_terminal_amended exDB3 (Op.claim 1 6 "Eve") boughtGift (by decide)
    (by decide) (fun u g hop => Op.noConfusion hop)
  exact ⟨h.1 true, h.2⟩

/-- C4 is false as stated on the code: with an empty administrator table
and actor 7 banned, `start` short-circuits on the ban before the
bootstrap check, so no administrator is inserted. -/
theorem C4_counterexample :
    dbBanned7.admins = [] ∧ dbBanned7.is_user_banned 7 = true ∧
      (start dbBanned7 7 none "Birthday").admins = [] :=
  ⟨rfl, by decide, by decide⟩

theorem start_admins_of_banned (db : DB) (uid : Nat) (un : Option String) (fn : String)
    (hb : is_banned db uid = true) : (start db uid un fn).admins = db.admins := by
  unfold start
  dsimp only
  rw [if_pos (show is_banned (db.track_user uid un (some fn)) uid = true from hb)]
  rfl

theorem start_admins_of_empty (db : DB) (uid : Nat) (un : Option String) (fn : String)
    (hb : is_banned db uid = false) (he : db.admins = []) :
    (start db uid un fn).admins = [(uid, some fn)] := by
  have hadmins1 : (db.track_user uid un (some fn)).admins = db.admins := rfl
  unfold start
  dsimp only
  rw [if_neg (by
    rw [show is_banned (db.track_user uid un (some fn)) uid = is_banned db uid from rfl, hb]
    exact Bool.false_ne_true)]
  rw [if_pos (by
    simp only [DB.has_any_admin, hadmins1, he, List.isEmpty_nil, Bool.not_true,
      Bool.not_false])]
  show (db.track_user uid un (some fn)).admins.filter _ ++ _ = _
  rw [hadmins1, he]
  rfl

theorem start_admins_of_nonempty (db : DB) (uid : Nat) (un : Option String) (fn : String)
    (hne : db.admins ≠ []) : (start db uid un fn).admins = db.admins := by
  have hadmins1 : (db.track_user uid un (some fn)).admins = db.admins := rfl
  unfold start
  dsimp only
  split
  · exact hadmins1
  · rw [if_neg (by
      simp only [DB.has_any_admin, hadmins1, Bool.not_not]
      rw [List.isEmpty_iff]
      exact hne)]
    exact hadmins1

/-- C4 (amended): `start` records the actor in the directory before any
short-circuit; the bootstrap runs after the ban check, so a banned actor
is never promoted; a non-banned actor arriving at an empty administrator
table becomes its sole administrator; when an administrator exists the
administrator table is untouched, and two initializations in a row add
exactly one administrator. -/
theorem C4_bootstrap_amended (db : DB) (uid : Nat) (un : Option String) (fn : String) :
    ((start db uid un fn).users.any (fun r => decide (r.user_id = uid)) = true) ∧
      (is_banned db uid = true → (start db uid un fn).admins = db.admins) ∧
      (is_banned db uid = false → db.admins = [] →
        (start db uid un fn).admins = [(uid, some fn)]) ∧
      (db.admins ≠ [] → (start db uid un fn).admins = db.admins) ∧
      (is_banned db uid = false → db.admins = [] →
        (start (start db uid un fn) uid un fn).admins = [(uid, some fn)]) := by
  have husers : (start db uid un fn).users =
      db.users.filter (fun r => decide (¬ r.user_id = uid)) ++ [⟨uid, un, some fn⟩] := by
    unfold start
    dsimp only
    split
    · rfl
    · split <;> rfl
  refine ⟨?_, ?_, ?_, ?_, ?_⟩
  · rw [List.any_eq_true, husers]
    exact ⟨⟨uid, un, some fn⟩, List.mem_append_right _ (List.mem_singleton.2 rfl), by simp⟩
  · exact start_admins_of_banned db uid un fn
  · exact start_admins_of_empty db uid un fn
  · exact start_admins_of_nonempty db uid un fn
  · intro hb he
    have h1 := start_admins_of_empty db uid un fn hb he
    rw [start_admins_of_nonempty (start db uid un fn) uid un fn
      (by rw [h1]; exact List.cons_ne_nil _ _), h1]

/-- Witness for C4 (amended): the first non-banned actor to start a
session on the fresh store becomes the sole administrator. -/
theorem C4_bootstrap_amended_witness :
    (start initDB 5 none "Alice").admins = [(5, some "Alice")] :=
  (C4_bootstrap_amended initDB 5 none "Alice").2.2.1 rfl rfl

/-- C8 is false as stated on the code: the input "-5" is accepted (the
flow advances to the category step) and the stored price is the negative
integer -5, because Python's `int` accepts a sign — nothing restricts the
price to non-negative values. -/
theorem C8_counterexample :
    (add_gift_price udEx ['-', '5']).2 = AddGiftStep.adding_gift_category ∧
      (add_gift_price udEx ['-', '5']).1.new_gift_price = some (some (-5)) := by
  constructor <;> decide

/-- C8 (amended): a price input is accepted exactly when it parses as an
integer — of either sign — after the spaces and ruble signs are removed
(Python `int` shape: optional surrounding whitespace, optional sign,
digits with single underscores between them); the parsed value, negative
ones included, is stored; invalid input re-prompts the price step with
the scratch state (the entered name included) untouched; skipping stores
an absent price and advances. -/
theorem C8_price_amended (ud : UserData) (text : List Char) :
    ((add_gift_price ud text).2 = AddGiftStep.adding_gift_category ↔
        ∃ n : Int, parse_price text = some n) ∧
      (∀ n : Int, parse_price text = some n →
        add_gift_price ud text =
          ({ ud with new_gift_price := some (some n) }, AddGiftStep.adding_gift_category)) ∧
      (parse_price text = none →
        add_gift_price ud text = (ud, AddGiftStep.adding_gift_price)) ∧
      skip_price ud = ({ ud with new_gift_price := some none },
        AddGiftStep.adding_gift_category) := by
  refine ⟨?_, ?_, ?_, rfl⟩
  · cases hp : parse_price text with
    | some n => simp [add_gift_price, hp]
    | none => simp [add_gift_price, hp]
  · intro n hp
    unfold add_gift_price
    rw [hp]
  · intro hp
    unfold add_gift_price
    rw [hp]

/-- Witness for C8 (amended): the input "5000" is accepted and stored. -/
theorem C8_price_amended_witness :
    add_gift_price udEx ['5', '0', '0', '0'] =
      ({ udEx with new_gift_price := some (some 5000) },
        AddGiftStep.adding_gift_category) :=
  (C8_price_amended udEx ['5', '0', '0', '0']).2.1 5000 (by decide)

/-- C9 is false as stated on the code: the submitted text "ab   " has
length 5, which the claim says must be accepted, but `save_fact` measures
the length after `strip()` (here 2) and rejects it without touching the
store. -/
theorem C9_counterexample :
    (['a', 'b', ' ', ' ', ' '] : List Char).length = 5 ∧
      save_fact initDB 5 ['a', 'b', ' ', ' ', ' '] = (initDB, false) := by
  constructor <;> decide

/-- C9 (amended): `save_fact` fails validation exactly when the
whitespace-stripped submitted text has length below 5 or above 500
(stripped lengths of exactly 5 and exactly 500 are accepted); a failure
leaves the store untouched and re-prompts; on success the stripped text
is appended as a new fact record. -/
theorem C9_fact_amended (db : DB) (uid : Nat) (text : List Char) :
    ((save_fact db uid text).2 = false ↔
        ((pyStrip text).length < 5 ∨ (pyStrip text).length > 500)) ∧
      ((pyStrip text).length < 5 ∨ (pyStrip text).length > 500 →
        (save_fact db uid text).1 = db) ∧
      (5 ≤ (pyStrip text).length → (pyStrip text).length ≤ 500 →
        (save_fact db uid text).1 = db.add_fact uid (String.mk (pyStrip text))) := by
  unfold save_fact
  dsimp only
  by_cases h1 : (pyStrip text).length < 5
  · rw [if_pos h1]
    refine ⟨by simp [h1], fun _ => rfl, fun hge _ => absurd h1 (by omega)⟩
  · rw [if_neg h1]
    by_cases h2 : (pyStrip text).length > 500
    · rw [if_pos h2]
      refine ⟨by simp [h1, h2], fun _ => rfl, fun _ hle => absurd h2 (by omega)⟩
    · rw [if_neg h2]
      refine ⟨?_, ?_, fun _ _ => rfl⟩
      · constructor
        · intro habs
          exact absurd habs (by simp)
        · intro hcase
          rcases hcase with hc | hc
          · exact absurd hc h1
          · exact absurd hc h2
      · intro hcase
        rcases hcase with hc | hc
        · exact absurd hc h1
        · exact absurd hc h2

/-- Witness for C9 (amended): a five-letter fact is accepted and appended. -/
theorem C9_fact_amended_witness :
    (save_fact initDB 5 ['h', 'e', 'l', 'l', 'o']).1 =
      initDB.add_fact 5 (String.mk (pyStrip ['h', 'e', 'l', 'l', 'o'])) :=
  (C9_fact_amended initDB 5 ['h', 'e', 'l', 'l', 'o']).2.2 (by decide) (by decide)

end GiftBot
